import Mathlib

/-!
Verification of the trust-and-access core of the auth0-enterprise-platform
backend (FastAPI + SQLAlchemy).  The Python source is shallowly embedded:
pure helpers become Lean functions, the database is an explicit list of rows,
`async` service methods become state-passing functions, and raised
`HTTPException` / `AuthenticationError` become `Except` results.

Modelling conventions, used throughout:
* Python truthiness of `Optional[str]` values (`if x:`) is `truthy` below:
  both `None` and `""` are falsy.
* `datetime` timestamps are modelled as `Nat` ticks; `isoformat` is modelled
  as the (injective) decimal rendering `toString`.  SQLAlchemy column
  defaults (`default=datetime.utcnow`, `default=uuid4`) fire at flush time,
  not at object construction, so a freshly built ORM object has
  `timestamp = None`; the model makes the flush explicit.
* SHA-256 (`hashlib.sha256(...).hexdigest()`) is kept abstract: definitions
  take the digest function `sha : String → String` as a parameter and apply
  it to the exact canonical JSON string the source serialises.  Concrete
  evaluations instantiate `sha` with an injective stand-in.
-/

/-- Python truthiness of an `Optional[str]`: `None` and `""` are falsy. -/
def truthy : Option String → Bool
  | none => false
  | some s => !(s == "")

/-- Hex digit used by the JSON `\uXXXX` escapes (lowercase, as CPython). -/
def hexDigit (n : Nat) : Char :=
  if n < 10 then Char.ofNat (48 + n) else Char.ofNat (87 + n)

/-- Escape of one character as in CPython `json.dumps` with its default
`ensure_ascii=True` (non-BMP code points, which CPython writes as surrogate
pairs, are rendered as a single `\uXXXX` group here; no hashed field contains
such characters in any concrete input used below). -/
def jsonEscapeChar (c : Char) : String :=
  if c = '"' then "\\\""
  else if c = '\\' then "\\\\"
  else if c = '\n' then "\\n"
  else if c = '\t' then "\\t"
  else if c = '\r' then "\\r"
  else if c.toNat = 8 then "\\b"
  else if c.toNat = 12 then "\\f"
  else if c.toNat < 32 || c.toNat > 126 then
    "\\u" ++ String.mk [hexDigit (c.toNat / 4096 % 16), hexDigit (c.toNat / 256 % 16),
      hexDigit (c.toNat / 16 % 16), hexDigit (c.toNat % 16)]
  else String.mk [c]

/-- Escape a whole string as CPython `json.dumps` does. -/
def jsonEscape (s : String) : String :=
  String.join (s.data.map jsonEscapeChar)

/-- One `"key": "value"` member of a JSON object whose values are strings. -/
def jsonStrField (k v : String) : String :=
  "\"" ++ jsonEscape k ++ "\": \"" ++ jsonEscape v ++ "\""

/-- An `audit_logs` row (`app/models/audit_log.py`, class `AuditLog`).
Fields not touched by the verified operations (actor email/ip/user-agent,
changes, metadata, request/session ids, geo fields) are omitted.
`timestamp` is `Option Nat` because the ORM object has no timestamp until
the flush applies the column default. -/
structure AuditLog where
  id : String
  timestamp : Option Nat
  event_type : String
  event_category : Option String
  severity : String
  outcome : String
  actor_id : Option String
  actor_type : Option String
  target_type : Option String
  target_id : Option String
  target_name : Option String
  organization_id : Option String
  description : Option String
  previous_hash : Option String
  current_hash : Option String
deriving Repr, DecidableEq

/-- Timestamp sort key of a row; flushed rows always carry `some t`. -/
def tsKey (log : AuditLog) : Nat := log.timestamp.getD 0

/-- The canonical JSON string hashed by `AuditService._calculate_hash`:
`json.dumps(data, sort_keys=True)` over the seven listed fields, so the keys
appear in sorted order with the default `", "` / `": "` separators.  Python
renders the timestamp as `timestamp.isoformat() if timestamp else ""` and the
optional string fields as `x or ""` (resp. `str(x) if x else ""`). -/
def hash_payload (log : AuditLog) : String :=
  "\x7b" ++ String.intercalate ", "
    [ jsonStrField "actor_id" (log.actor_id.getD "")
    , jsonStrField "description" (log.description.getD "")
    , jsonStrField "event_type" log.event_type
    , jsonStrField "organization_id" (log.organization_id.getD "")
    , jsonStrField "outcome" log.outcome
    , jsonStrField "target_id" (log.target_id.getD "")
    , jsonStrField "timestamp" (match log.timestamp with
        | some t => toString t
        | none => "")
    ] ++ "\x7d"

/-- `AuditService._calculate_hash`: SHA-256 hex digest of the canonical JSON
payload; the digest function is a parameter (see the header comment). -/
def _calculate_hash (sha : String → String) (log : AuditLog) : String :=
  sha (hash_payload log)

/-- The SQL predicate used by both `_get_last_log` and
`verify_chain_integrity`: when the organization id is truthy the query adds
`WHERE organization_id == :org`, otherwise no filter is added at all. -/
def matches_org (organization_id : Option String) (log : AuditLog) : Bool :=
  if truthy organization_id then log.organization_id == organization_id else true

/-- Insert a row into a list kept in ascending timestamp order. -/
def insertByTs (x : AuditLog) : List AuditLog → List AuditLog
  | [] => [x]
  | y :: ys => if tsKey x < tsKey y then x :: y :: ys else y :: insertByTs x ys

/-- `ORDER BY timestamp` (ascending), as an insertion sort.  SQL leaves the
relative order of equal timestamps unspecified; all theorems that depend on
the order assume strictly increasing timestamps. -/
def order_by_timestamp : List AuditLog → List AuditLog
  | [] => []
  | x :: xs => insertByTs x (order_by_timestamp xs)

/-- `ORDER BY timestamp DESC` (tie order unspecified in SQL, modelled as the
reverse of the ascending sort). -/
def order_by_timestamp_desc (db : List AuditLog) : List AuditLog :=
  (order_by_timestamp db).reverse

/-- `AuditService._get_last_log`: latest row by timestamp (`LIMIT 1`),
filtered to the organization only when `organization_id` is truthy. -/
def _get_last_log (organization_id : Option String) (db : List AuditLog) :
    Option AuditLog :=
  (order_by_timestamp_desc (db.filter (matches_org organization_id))).head?

/-- The row assembled by `AuditService.create_log` via `AuditLogBuilder`,
before hashing/chaining/flush.  Mirrors the builder calls: `event` derives
`event_category` from the prefix before the first dot; `success`/`failure`
collapse any non-success outcome to `"failure"`; the `if target_type:`,
`if organization_id:` and `if description:` guards use Python truthiness;
`actor_id` is `actor.sub` when an actor is given.  `id` and `timestamp` stay
unset until the flush. -/
def build_audit_log (event_type : String) (actor_sub : Option String)
    (target_type target_id target_name : Option String)
    (organization_id : Option String) (description : Option String)
    (outcome severity : String) : AuditLog :=
  { id := ""
  , timestamp := none
  , event_type := event_type
  , event_category :=
      if event_type.contains '.' then some ((event_type.splitOn ".").headD "")
      else none
  , severity := severity
  , outcome := if outcome == "success" then "success" else "failure"
  , actor_id := actor_sub
  , actor_type := actor_sub.map (fun _ => "user")
  , target_type := if truthy target_type then target_type else none
  , target_id := if truthy target_type then target_id else none
  , target_name := if truthy target_type then target_name else none
  , organization_id := if truthy organization_id then organization_id else none
  , description := if truthy description then description else none
  , previous_hash := none
  , current_hash := none }

/-- `AuditService.create_log`: build the row, compute `current_hash` (at this
point `timestamp` is still unset, so the hashed payload carries an empty
timestamp string), link `previous_hash` to the latest row of the same scope,
then `db.add` + `flush` — the flush applies the `uuid4` and
`datetime.utcnow` column defaults, supplied here as `eid` / `flush_ts`. -/
def create_log (sha : String → String) (db : List AuditLog)
    (eid : String) (flush_ts : Nat)
    (event_type : String) (actor_sub : Option String)
    (target_type target_id target_name : Option String)
    (organization_id : Option String) (description : Option String)
    (outcome severity : String) : List AuditLog :=
  let built := build_audit_log event_type actor_sub target_type target_id
    target_name organization_id description outcome severity
  let hashed := { built with current_hash := some (_calculate_hash sha built) }
  let chained :=
    match _get_last_log organization_id db with
    | some last => { hashed with previous_hash := last.current_hash }
    | none => hashed
  db ++ [{ chained with id := eid, timestamp := some flush_ts }]

/-- One entry of the `broken_links` list returned by
`verify_chain_integrity`; the two dict shapes become two constructors. -/
inductive BrokenLink where
  | hash_mismatch (id : String) (expected : String) (actual : String)
  | chain_broken (id : String) (expected_previous actual_previous : Option String)
deriving Repr, DecidableEq

/-- Recognize the `chain_broken` shape. -/
def BrokenLink.isChainBroken : BrokenLink → Bool
  | .chain_broken .. => true
  | _ => false

/-- The `actual_previous` field of a `chain_broken` entry. -/
def BrokenLink.actualPrevious : BrokenLink → Option String
  | .chain_broken _ _ a => a
  | .hash_mismatch _ _ a => some a

/-- The hash check of one loop iteration of `verify_chain_integrity`:
`if log.current_hash and log.current_hash != expected_hash` (Python
truthiness on the stored hash). -/
def hash_issues (sha : String → String) (log : AuditLog) : List BrokenLink :=
  if truthy log.current_hash && !(log.current_hash == some (_calculate_hash sha log)) then
    [.hash_mismatch log.id (_calculate_hash sha log) (log.current_hash.getD "")]
  else []

/-- The chain-link check of one loop iteration: performed only when the row
is not the first of the fetched sequence (`i > 0`) and its `previous_hash`
is truthy. -/
def chain_issues (prev : Option AuditLog) (log : AuditLog) : List BrokenLink :=
  match prev with
  | none => []
  | some p =>
    if truthy log.previous_hash && !(log.previous_hash == p.current_hash) then
      [.chain_broken log.id p.current_hash log.previous_hash]
    else []

/-- The `for i, log in enumerate(logs)` loop of `verify_chain_integrity`,
with the predecessor row standing in for the index test `i > 0`. -/
def verify_walk (sha : String → String) (prev : Option AuditLog) :
    List AuditLog → List BrokenLink
  | [] => []
  | log :: rest =>
    hash_issues sha log ++ chain_issues prev log ++ verify_walk sha (some log) rest

/-- Return shape of `verify_chain_integrity`. -/
structure IntegrityReport where
  verified_count : Nat
  is_valid : Bool
  broken_links : List BrokenLink
deriving Repr, DecidableEq

/-- `AuditService.verify_chain_integrity`: fetch rows in ascending timestamp
order (org filter only when `org_context.org_id` is truthy, bounded by
`limit`), then run the per-row hash and chain-link checks. -/
def verify_chain_integrity (sha : String → String) (org_id : Option String)
    (limit : Nat) (db : List AuditLog) : IntegrityReport :=
  let logs := (order_by_timestamp (db.filter (matches_org org_id))).take limit
  let broken := verify_walk sha none logs
  { verified_count := logs.length
  , is_valid := broken.length == 0
  , broken_links := broken }

/-- Error kinds raised by the dependency layer (`HTTPException` with status
403 / 400; the `detail` string is kept). -/
inductive HTTPError where
  | forbidden (detail : String)
  | bad_request (detail : String)
deriving Repr, DecidableEq

/-- `app.utils.errors.ErrorCode` members used by the auth dependency. -/
inductive ErrorCode where
  | AUTH_TOKEN_INVALID
  | AUTH_TOKEN_EXPIRED
deriving Repr, DecidableEq

/-- A JSON value as found in a decoded JWT payload (`Dict[str, Any]`).
Nested objects are not needed by the verified claims and are omitted. -/
inductive JsonVal where
  | str (s : String)
  | num (n : Int)
  | bool (b : Bool)
  | list (xs : List JsonVal)
  | null
deriving Repr

/-- Python truthiness of a JSON value. -/
def JsonVal.truthy : JsonVal → Bool
  | .str s => !(s == "")
  | .num n => !(n == 0)
  | .bool b => b
  | .list xs => !xs.isEmpty
  | .null => false

/-- A JWT payload: a JSON object with unique keys (`dict.get` is the first
match). -/
def pget (payload : List (String × JsonVal)) (k : String) : Option JsonVal :=
  (payload.find? (fun kv => kv.1 == k)).map (fun kv => kv.2)

/-- Python `payload.get(k1) or payload.get(k2)`: the first value wins when it
is truthy, otherwise the second lookup is used. -/
def or_claim (a b : Option JsonVal) : Option JsonVal :=
  match a with
  | some v => if v.truthy then some v else b
  | none => b

/-- Python `payload.get(k1, dflt) or payload.get(k2, dflt)`. -/
def or_claim_d (a b : Option JsonVal) (dflt : JsonVal) : JsonVal :=
  let av := a.getD dflt
  if av.truthy then av else b.getD dflt

/-- Pydantic boundary for an `Optional[str]` field: a JSON string passes
through, `None`/missing become `none` (a non-string value would be a
pydantic validation error, not exercised by any claim). -/
def as_opt_str : Option JsonVal → Option String
  | some (.str s) => some s
  | _ => none

/-- The `isinstance(x, list)` guard of the extractor followed by the
pydantic `list[str]` boundary: a JSON list keeps its string elements, any
non-list value becomes the empty list. -/
def as_str_list : Option JsonVal → List String
  | some (.list xs) => xs.filterMap (fun v => match v with | .str s => some s | _ => none)
  | _ => []

/-- Pydantic boundary for a `bool` field. -/
def as_bool : JsonVal → Bool
  | .bool b => b
  | _ => false

/-- `app.dependencies.auth.CurrentUser` (metadata mappings omitted). -/
structure CurrentUser where
  sub : String
  email : Option String := none
  email_verified : Bool := false
  name : Option String := none
  nickname : Option String := none
  picture : Option String := none
  org_id : Option String := none
  permissions : List String := []
  roles : List String := []
  raw_token : String := ""
deriving Repr, DecidableEq

/-- `CurrentUser.is_system_admin`: role membership test. -/
def CurrentUser.is_system_admin (u : CurrentUser) : Bool :=
  u.roles.contains "system_admin" || u.roles.contains "super_admin"

/-- `CurrentUser.has_permission`. -/
def CurrentUser.has_permission (u : CurrentUser) (permission : String) : Bool :=
  u.permissions.contains permission

/-- `extract_user_from_token` (`app/dependencies/auth.py`): standard claims
prefer the top-level value, falling back to the `"{namespace}/{claim}"`
form when the top-level one is absent or falsy; `permissions` follows the
same pattern with `[]` defaults; `roles` is read from the namespaced
location only. -/
def extract_user_from_token (payload : List (String × JsonVal)) (token : String)
    (claims_namespace : String) : CurrentUser :=
  let nsk := fun (k : String) => claims_namespace ++ "/" ++ k
  { sub := match pget payload "sub" with | some (.str s) => s | _ => ""
  , email := as_opt_str (or_claim (pget payload "email") (pget payload (nsk "email")))
  , email_verified := as_bool (or_claim_d (pget payload "email_verified")
      (pget payload (nsk "email_verified")) (.bool false))
  , name := as_opt_str (or_claim (pget payload "name") (pget payload (nsk "name")))
  , nickname := as_opt_str (or_claim (pget payload "nickname") (pget payload (nsk "nickname")))
  , picture := as_opt_str (or_claim (pget payload "picture") (pget payload (nsk "picture")))
  , org_id := as_opt_str (or_claim (pget payload "org_id") (pget payload (nsk "org_id")))
  , permissions := as_str_list (some (or_claim_d (pget payload "permissions")
      (pget payload (nsk "permissions")) (.list [])))
  , roles := as_str_list (some ((pget payload (nsk "roles")).getD (.list [])))
  , raw_token := token }

/-- `OrgContext` (`app/dependencies/org_isolation.py`): per-request tenant
resolution result. -/
structure OrgContext where
  org_id : Option String := none
  org_name : Option String := none
  is_override : Bool := false
  original_org_id : Option String := none
deriving Repr, DecidableEq

/-- `get_org_context` (`app/dependencies/org_isolation.py`): header override
resolution.  The `if x_organization_override:` guard is Python truthiness. -/
def get_org_context (user : CurrentUser) (x_organization_override : Option String) :
    Except HTTPError OrgContext :=
  let user_org_id := user.org_id
  if truthy x_organization_override then
    if !user.is_system_admin then
      .error (.forbidden "Organization override requires system admin privileges")
    else
      .ok { org_id := x_organization_override
          , is_override := true
          , original_org_id := user_org_id }
  else
    .ok { org_id := user_org_id, is_override := false }

/-- The WHERE clause `OrgScopedQuery.scope_select` adds to a SELECT, as
data; `unfiltered` is the unmodified statement. -/
inductive OrgFilter where
  | unfiltered
  | org_eq (oid : String)
  | null_org
  | org_eq_or_null (oid : String)
deriving Repr, DecidableEq

/-- Which entity organization ids satisfy a filter (SQL semantics:
`organization_id == :oid` is false for NULL rows; `IS NULL` matches exactly
the NULL rows). -/
def OrgFilter.matches : OrgFilter → Option String → Bool
  | .unfiltered, _ => true
  | .org_eq oid, o => o == some oid
  | .null_org, o => o == none
  | .org_eq_or_null oid, o => o == some oid || o == none

/-- `OrgScopedQuery.scope_select`: `has_organization_id_attr` stands for
`hasattr(model, "organization_id")`; the `if self.org_context.org_id:`
guards are Python truthiness. -/
def scope_select (has_organization_id_attr : Bool) (user : CurrentUser)
    (org_context : OrgContext) (allow_null_org : Bool) : OrgFilter :=
  if !has_organization_id_attr then .unfiltered
  else if user.is_system_admin && org_context.is_override then
    if truthy org_context.org_id then
      if allow_null_org then .org_eq_or_null (org_context.org_id.getD "")
      else .org_eq (org_context.org_id.getD "")
    else .unfiltered
  else if !(truthy org_context.org_id) then .null_org
  else if allow_null_org then .org_eq_or_null (org_context.org_id.getD "")
  else .org_eq (org_context.org_id.getD "")

/-- `require_permissions` (`app/dependencies/permissions.py`): the inner
`permission_checker` dependency, with the 403 detail string it raises. -/
def require_permissions (required_permissions : List String) (user : CurrentUser) :
    Except HTTPError CurrentUser :=
  if user.is_system_admin then .ok user
  else
    let missing := required_permissions.filter (fun p => !(user.has_permission p))
    if !missing.isEmpty then
      .error (.forbidden ("Missing required permissions: " ++ String.intercalate ", " missing))
    else .ok user

/-- The unverified JWT header (`jwt.get_unverified_header`); `none` models a
malformed token for which the parse raises `JWTError`. -/
structure JWTHeader where
  alg : Option String
  kid : Option String
deriving Repr, DecidableEq

/-- A bearer token, abstracted to what `validate_token` inspects directly:
its parsed header.  Signature material is behind the `jwt_decode` parameter
of `validate_token`. -/
structure Token where
  header : Option JWTHeader
deriving Repr, DecidableEq

/-- A JWKS entry (`kid` plus the RS256 key material). -/
structure JWK where
  kid : String
  material : String
deriving Repr, DecidableEq

/-- Errors the `jose` decode step can raise. -/
inductive JoseError where
  | expired_signature
  | claims_invalid
  | jwt_invalid
deriving Repr, DecidableEq

/-- `validate_algorithm`: reject a malformed header or any `alg` other than
exactly `"RS256"`; on success return `header.get("kid", "")`. -/
def validate_algorithm (t : Token) : Except ErrorCode String :=
  match t.header with
  | none => .error .AUTH_TOKEN_INVALID
  | some h =>
    if !(h.alg == some "RS256") then .error .AUTH_TOKEN_INVALID
    else .ok (h.kid.getD "")

/-- `validate_token`: algorithm gate, then signing-key resolution (the JWKS
client outcome is the `get_signing_key_result` parameter, which may itself
fail hard), then the `jose` decode (signature/claims/expiry), with
`ExpiredSignatureError` mapped to `AUTH_TOKEN_EXPIRED` and every other
decode failure to `AUTH_TOKEN_INVALID`. -/
def validate_token (t : Token)
    (get_signing_key_result : String → Except ErrorCode (Option JWK))
    (jwt_decode : JWK → Except JoseError (List (String × JsonVal))) :
    Except ErrorCode (List (String × JsonVal)) :=
  match validate_algorithm t with
  | .error e => .error e
  | .ok kid =>
    match get_signing_key_result kid with
    | .error e => .error e
    | .ok none => .error .AUTH_TOKEN_INVALID
    | .ok (some signing_key) =>
      match jwt_decode signing_key with
      | .ok payload => .ok payload
      | .error .expired_signature => .error .AUTH_TOKEN_EXPIRED
      | .error .claims_invalid => .error .AUTH_TOKEN_INVALID
      | .error .jwt_invalid => .error .AUTH_TOKEN_INVALID

/-- The `kid -> key` map of `JWKSClient._keys`, as an association list where
a later binding overwrites an earlier one (dict assignment). -/
def dict_get (m : List (String × JWK)) (k : String) : Option JWK :=
  ((m.filter (fun kv => kv.1 == k)).getLast?).map (fun kv => kv.2)

/-- Indexing of a fetched JWKS document: `for key in keys: if key.get("kid"):
self._keys[key["kid"]] = key` (entries with a falsy kid are skipped). -/
def index_keys (jwks : List JWK) : List (String × JWK) :=
  jwks.foldl (fun m k => if k.kid == "" then m else m ++ [(k.kid, k)]) []

/-- Mutable state of `JWKSClient`. -/
structure JWKSState where
  keys : List (String × JWK)
  last_fetch : Nat
deriving Repr, DecidableEq

/-- `JWKSClient._fetch_keys`: the network outcome is `fetch_result` (`none`
models an `httpx.HTTPError`).  Success replaces the whole map and the fetch
time; failure keeps the existing state and raises only when the map was
already empty. -/
def _fetch_keys (st : JWKSState) (now : Nat) (fetch_result : Option (List JWK)) :
    Except ErrorCode JWKSState :=
  match fetch_result with
  | some jwks => .ok { keys := index_keys jwks, last_fetch := now }
  | none => if st.keys.isEmpty then .error .AUTH_TOKEN_INVALID else .ok st

/-- Result of one `get_signing_key` call: the looked-up key, the state the
client is left in, and whether a refresh was attempted. -/
structure KeyLookup where
  result : Option JWK
  state : JWKSState
  fetched : Bool
deriving Repr, DecidableEq

/-- `JWKSClient.get_signing_key`: refresh when the TTL has elapsed
(`time.time() - self._last_fetch > self.cache_ttl`, on `Nat` ticks) or the
kid is not cached, then look the kid up in the (possibly refreshed) map. -/
def get_signing_key (st : JWKSState) (cache_ttl : Nat) (kid : String) (now : Nat)
    (fetch_result : Option (List JWK)) : Except ErrorCode KeyLookup :=
  if now - st.last_fetch > cache_ttl || (dict_get st.keys kid).isNone then
    match _fetch_keys st now fetch_result with
    | .error e => .error e
    | .ok st2 => .ok { result := dict_get st2.keys kid, state := st2, fetched := true }
  else
    .ok { result := dict_get st.keys kid, state := st, fetched := false }

/-- `ControlStatus` (`app/services/compliance_service.py`). -/
inductive ControlStatus where
  | COMPLIANT
  | NON_COMPLIANT
  | PARTIAL
  | NOT_APPLICABLE
  | PENDING_REVIEW
deriving Repr, DecidableEq

/-- The `.value` string of each enum member. -/
def ControlStatus.value : ControlStatus → String
  | .COMPLIANT => "compliant"
  | .NON_COMPLIANT => "non_compliant"
  | .PARTIAL => "partial"
  | .NOT_APPLICABLE => "not_applicable"
  | .PENDING_REVIEW => "pending_review"

set_option linter.unusedVariables false in
/-- `ComplianceService._determine_control_status`: thresholds on the
evidence count (a SQL `COUNT`, hence a `Nat`).  The `control_id` argument is
kept from the source signature and is unused, as there. -/
def _determine_control_status (control_id : String) (evidence_count : Nat) :
    ControlStatus :=
  if evidence_count ≥ 100 then .COMPLIANT
  else if evidence_count ≥ 10 then .PARTIAL
  else if evidence_count > 0 then .PENDING_REVIEW
  else .NOT_APPLICABLE

/-- One entry of the `controls_status` list, reduced to the fields the score
computation reads. -/
structure ControlRecord where
  control_id : String
  status : String
  evidence_count : Nat
deriving Repr, DecidableEq

/-- `weights.get(control["status"])` of `_calculate_compliance_score`:
`NOT_APPLICABLE` maps to `None` in the Python dict and unknown status
strings miss the dict, so both are excluded (`none`). -/
def weights_get (status : String) : Option ℚ :=
  if status == "compliant" then some 1
  else if status == "partial" then some (1 / 2)
  else if status == "pending_review" then some (1 / 4)
  else if status == "non_compliant" then some 0
  else none

/-- Python `round(x, 2)`, on exact rationals.  CPython rounds the nearest
binary float with banker's rounding; on the exact values produced by the
weight table the two agree except at exact ties in the third decimal, which
no verified statement depends on. -/
def round2 (q : ℚ) : ℚ := ((round (q * 100) : ℤ) : ℚ) / 100

/-- `ComplianceService._calculate_compliance_score`.  The Python loop
accumulates `total_weight` (one per control whose status has a non-`None`
weight) and `total_score` (the sum of those weights); they are written here
as a filter length and a sum, and the arithmetic is exact rational
arithmetic in place of IEEE floats. -/
def _calculate_compliance_score (controls_status : List ControlRecord) : ℚ :=
  if controls_status.isEmpty then 0
  else
    let total_weight : ℚ :=
      ((controls_status.filter (fun c => (weights_get c.status).isSome)).length : ℚ)
    let total_score : ℚ :=
      (controls_status.map (fun c => (weights_get c.status).getD 0)).sum
    if total_weight = 0 then 100
    else round2 (total_score / total_weight * 100)

/-- The evidence count of one control in `_evaluate_controls`: zero when the
control maps to no event types (no query is issued at all), otherwise the
count of audit rows in the window with a matching event type, org-filtered
only when the context org id is truthy. -/
def control_evidence_count (event_types : List String) (org_id : Option String)
    (start_date end_date : Nat) (db : List AuditLog) : Nat :=
  if event_types.isEmpty then 0
  else (db.filter (fun l =>
    decide (start_date ≤ tsKey l) && decide (tsKey l ≤ end_date) &&
    event_types.contains l.event_type && matches_org org_id l)).length

/-! Theorems. -/

/-- A flushed audit row with the given chain fields, used for concrete
evaluations. -/
def mkRow (id : String) (ts : Nat) (org : Option String)
    (prev cur : Option String) : AuditLog :=
  { id := id
  , timestamp := some ts
  , event_type := "user.created"
  , event_category := some "user"
  , severity := "info"
  , outcome := "success"
  , actor_id := none
  , actor_type := none
  , target_type := none
  , target_id := none
  , target_name := none
  , organization_id := org
  , description := none
  , previous_hash := prev
  , current_hash := cur }

set_option maxRecDepth 4000 in
/-- C1: the claim says a chain appended via `create_log` and left unmodified
verifies with `is_valid = true` and no broken links.  The code computes
`current_hash` before the flush assigns the `timestamp` column default, so
the stored hash covers an empty timestamp string while verification
recomputes the hash from the stored timestamp: even a single untampered
append is reported as a `hash_mismatch` and the chain is declared invalid.
(The digest stand-in is the identity, which is injective like SHA-256 on
these payloads.) -/
theorem create_log_then_verify_reports_hash_mismatch :
    (verify_chain_integrity (fun s => s) (some "org-1") 1000
        (create_log (fun s => s) [] "log-1" 5 "auth.login.success" (some "user-1")
          (some "user") (some "user-1") none (some "org-1") none
          "success" "info")).is_valid = false ∧
    (verify_chain_integrity (fun s => s) (some "org-1") 1000
        (create_log (fun s => s) [] "log-1" 5 "auth.login.success" (some "user-1")
          (some "user") (some "user-1") none (some "org-1") none
          "success" "info")).broken_links.length = 1 ∧
    ((verify_chain_integrity (fun s => s) (some "org-1") 1000
        (create_log (fun s => s) [] "log-1" 5 "auth.login.success" (some "user-1")
          (some "user") (some "user-1") none (some "org-1") none
          "success" "info")).broken_links.all
        (fun b => !b.isChainBroken)) = true := by
  refine ⟨by decide, by decide, by decide⟩

/-- Every `chain_broken` entry `verify_walk` emits carries the offending
row's truthy `previous_hash` as its `actual_previous`. -/
theorem verify_walk_chain_broken_truthy (sha : String → String) :
    ∀ (logs : List AuditLog) (prev : Option AuditLog),
      ∀ b ∈ verify_walk sha prev logs,
        b.isChainBroken = true → truthy b.actualPrevious = true := by
  intro logs
  induction logs with
  | nil => intro prev b hb; simp [verify_walk] at hb
  | cons l rest ih =>
    intro prev b hb hcb
    simp only [verify_walk, List.mem_append] at hb
    rcases hb with (hb | hb) | hb
    · exfalso
      unfold hash_issues at hb
      split at hb
      · simp at hb
        subst hb
        simp [BrokenLink.isChainBroken] at hcb
      · simp at hb
    · unfold chain_issues at hb
      match prev with
      | none => simp at hb
      | some p =>
        simp only at hb
        split at hb
        next hcond =>
          simp at hb
          subst hb
          simp only [BrokenLink.actualPrevious]
          simp only [Bool.and_eq_true] at hcond
          exact hcond.1
        next => simp at hb
    · exact ih (some l) b hb hcb

/-- C10: a stored row whose `previous_hash` is null is never the subject of
a `chain_broken` issue — any `chain_broken` that `verify_chain_integrity`
reports carries the offending row's truthy (hence non-null) `previous_hash`
as `actual_previous` — and the first fetched row is only ever hash-checked:
the chain-link comparison is skipped for it unconditionally. -/
theorem verify_chain_null_previous_hash_never_chain_broken
    (sha : String → String) (org_id : Option String) (limit : Nat)
    (db : List AuditLog) :
    (∀ b ∈ (verify_chain_integrity sha org_id limit db).broken_links,
      b.isChainBroken = true → truthy b.actualPrevious = true) ∧
    (∀ l rest, verify_walk sha none (l :: rest) =
      hash_issues sha l ++ verify_walk sha (some l) rest) := by
  constructor
  · intro b hb
    exact verify_walk_chain_broken_truthy sha _ none b hb
  · intro l rest
    simp [verify_walk, chain_issues]

/-- Witness for C10 at a store containing a genuinely broken link. -/
theorem verify_chain_null_previous_hash_never_chain_broken_witness :
    truthy (BrokenLink.chain_broken "b" (some "h1") (some "bogus")).actualPrevious
      = true :=
  (verify_chain_null_previous_hash_never_chain_broken (fun s => s) none 1000
      [mkRow "a" 1 none none (some "h1"), mkRow "b" 2 none (some "bogus") (some "h2")]).1
    (BrokenLink.chain_broken "b" (some "h1") (some "bogus")) (by decide) (by decide)

/-- A store whose rows are in strictly ascending timestamp order — the state
every sequence of flushed appends produces, since `datetime.utcnow` advances
between flushes. -/
def strictAsc (db : List AuditLog) : Prop :=
  List.Pairwise (fun a b => tsKey a < tsKey b) db

instance (db : List AuditLog) : Decidable (strictAsc db) := by
  unfold strictAsc; infer_instance

/-- Inserting a row below every element of a list prepends it. -/
theorem insertByTs_eq_cons (x : AuditLog) (l : List AuditLog)
    (h : ∀ y ∈ l, tsKey x < tsKey y) : insertByTs x l = x :: l := by
  cases l with
  | nil => rfl
  | cons y ys => simp [insertByTs, h y (List.mem_cons_self y ys)]

/-- Sorting a strictly ascending list leaves it unchanged. -/
theorem order_by_timestamp_eq_self {l : List AuditLog} (h : strictAsc l) :
    order_by_timestamp l = l := by
  induction l with
  | nil => rfl
  | cons x xs ih =>
    have hx : ∀ y ∈ xs, tsKey x < tsKey y := (List.pairwise_cons.mp h).1
    have hp : strictAsc xs := (List.pairwise_cons.mp h).2
    simp [order_by_timestamp, ih hp, insertByTs_eq_cons x xs hx]

/-- On a strictly ascending store, `_get_last_log` is the last matching row
of the store. -/
theorem _get_last_log_eq_getLast (org : Option String) {db : List AuditLog}
    (h : strictAsc db) :
    _get_last_log org db = (db.filter (matches_org org)).getLast? := by
  have hf : strictAsc (db.filter (matches_org org)) :=
    h.sublist (List.filter_sublist db)
  unfold _get_last_log order_by_timestamp_desc
  rw [order_by_timestamp_eq_self hf]
  exact List.head?_reverse _

/-- C2 counterexample: the claim says an organization-less event chains
against the most recently written organization-less record.  Appending an
org-less event to a store holding only an `"org-a"` record links it to that
tenant's record (`_get_last_log` drops the org filter entirely when the org
id is falsy), although no organization-less predecessor exists. -/
theorem orgless_append_chains_to_tenant_record :
    ((create_log (fun s => s)
        (create_log (fun s => s) [] "log-a" 1 "user.created" none none none none
          (some "org-a") none "success" "info")
        "log-b" 2 "system.startup" none none none none none none
        "success" "info").getLast?.bind (fun l => l.previous_hash)
      = ((create_log (fun s => s) [] "log-a" 1 "user.created" none none none none
          (some "org-a") none "success" "info").getLast?.bind
            (fun l => l.current_hash))) ∧
    ((create_log (fun s => s) [] "log-a" 1 "user.created" none none none none
        (some "org-a") none "success" "info").filter
          (fun l => l.organization_id == none) = []) ∧
    ((create_log (fun s => s)
        (create_log (fun s => s) [] "log-a" 1 "user.created" none none none none
          (some "org-a") none "success" "info")
        "log-b" 2 "system.startup" none none none none none none
        "success" "info").getLast?.bind (fun l => l.previous_hash) ≠ none) := by
  refine ⟨by decide, by decide, by decide⟩

/-- C2 amended: on a strictly ascending store, the appended record's
`previous_hash` is the `current_hash` of the most recently written record
matching the creation scope — the records of that organization when the
event carries a truthy organization id, and the whole store (regardless of
tenant) when the organization id is absent or empty. -/
theorem create_log_previous_hash_latest_in_scope
    (sha : String → String) (db : List AuditLog) (eid : String) (flush_ts : Nat)
    (event_type : String) (actor_sub : Option String)
    (target_type target_id target_name : Option String)
    (organization_id : Option String) (description : Option String)
    (outcome severity : String) (h : strictAsc db) :
    (create_log sha db eid flush_ts event_type actor_sub target_type target_id
        target_name organization_id description outcome severity).getLast?.bind
      (fun l => l.previous_hash)
      = ((db.filter (matches_org organization_id)).getLast?).bind
          (fun l => l.current_hash) := by
  unfold create_log
  rw [List.getLast?_concat]
  rw [_get_last_log_eq_getLast organization_id h]
  cases (db.filter (matches_org organization_id)).getLast? <;> simp [build_audit_log]

/-- Witness for C2's amended statement: an org-less append on a one-record
tenant store takes that record's hash as its `previous_hash`. -/
theorem create_log_previous_hash_latest_in_scope_witness :
    (create_log (fun s => s) [mkRow "a" 1 (some "org-a") none (some "ha")]
        "b" 2 "system.startup" none none none none none none
        "success" "info").getLast?.bind (fun l => l.previous_hash)
      = some "ha" := by
  rw [create_log_previous_hash_latest_in_scope _ _ _ _ _ _ _ _ _ _ _ _ _
    (by decide)]
  decide

/-- A regular organization member, for concrete evaluations. -/
def member_user : CurrentUser :=
  { sub := "u1", org_id := some "org-1", permissions := ["read:teams"]
  , roles := ["member"] }

/-- A system administrator, for concrete evaluations. -/
def admin_user : CurrentUser :=
  { sub := "a1", org_id := some "org-1", permissions := []
  , roles := ["system_admin"] }

/-- C3 counterexample: the claim says any supplied override header from a
non-admin fails with Forbidden.  A supplied but empty header value is falsy,
so `get_org_context` silently ignores it and resolves the principal's own
organization instead of rejecting (and for an admin it would likewise not
produce an override context). -/
theorem empty_override_header_is_ignored :
    get_org_context member_user (some "")
        = .ok { org_id := some "org-1", is_override := false } ∧
    member_user.is_system_admin = false ∧
    (some "" : Option String) ≠ none := by
  refine ⟨rfl, by decide, by decide⟩

/-- C3 amended: with a truthy (non-empty) override header, a non-admin is
rejected with Forbidden and an admin gets the override context carrying the
target org and their own original org; with an absent or empty header the
context is the principal's own organization without override. -/
theorem get_org_context_resolution (user : CurrentUser) (hdr : Option String) :
    (truthy hdr = true → user.is_system_admin = false →
      get_org_context user hdr =
        .error (.forbidden "Organization override requires system admin privileges"))
  ∧ (truthy hdr = true → user.is_system_admin = true →
      get_org_context user hdr =
        .ok { org_id := hdr, is_override := true, original_org_id := user.org_id })
  ∧ (truthy hdr = false →
      get_org_context user hdr = .ok { org_id := user.org_id, is_override := false }) := by
  refine ⟨?_, ?_, ?_⟩
  · intro th ha; simp [get_org_context, th, ha]
  · intro th ha; simp [get_org_context, th, ha]
  · intro th; simp [get_org_context, th]

/-- Witness for C3's amended statement at the spec's own example inputs. -/
theorem get_org_context_resolution_witness :
    get_org_context member_user (some "org-42")
        = .error (.forbidden "Organization override requires system admin privileges") ∧
    get_org_context admin_user (some "org-42")
        = .ok { org_id := some "org-42", is_override := true
              , original_org_id := some "org-1" } ∧
    get_org_context admin_user none
        = .ok { org_id := some "org-1", is_override := false } :=
  ⟨(get_org_context_resolution member_user (some "org-42")).1 (by decide) (by decide),
   (get_org_context_resolution admin_user (some "org-42")).2.1 (by decide) (by decide),
   (get_org_context_resolution admin_user none).2.2 (by decide)⟩

/-- C4: semantics of the filter `scope_select` attaches — an org-less model
is unfiltered; a non-override context with a falsy org admits only null-org
rows; a non-override context with a truthy org admits exactly that org
(plus null-org rows when requested); an admin override with a truthy target
org behaves the same way; an admin override with a falsy org is unrestricted. -/
theorem scope_select_filter_semantics (user : CurrentUser) (ctx : OrgContext)
    (allow_null_org : Bool) (entity_org : Option String) :
    ((scope_select false user ctx allow_null_org).matches entity_org = true)
  ∧ (ctx.is_override = false → truthy ctx.org_id = false →
      (scope_select true user ctx allow_null_org).matches entity_org
        = (entity_org == none))
  ∧ (ctx.is_override = false → truthy ctx.org_id = true →
      (scope_select true user ctx allow_null_org).matches entity_org
        = (entity_org == ctx.org_id || (allow_null_org && entity_org == none)))
  ∧ (user.is_system_admin = true → ctx.is_override = true → truthy ctx.org_id = true →
      (scope_select true user ctx allow_null_org).matches entity_org
        = (entity_org == ctx.org_id || (allow_null_org && entity_org == none)))
  ∧ (user.is_system_admin = true → ctx.is_override = true → truthy ctx.org_id = false →
      (scope_select true user ctx allow_null_org).matches entity_org = true) := by
  refine ⟨?_, ?_, ?_, ?_, ?_⟩
  · simp [scope_select, OrgFilter.matches]
  · intro hov hog
    simp [scope_select, hov, hog, OrgFilter.matches]
  · intro hov hog
    cases hoid : ctx.org_id with
    | none => rw [hoid] at hog; simp [truthy] at hog
    | some s =>
      rw [hoid] at hog
      cases allow_null_org <;>
        simp [scope_select, hov, hog, hoid, OrgFilter.matches]
  · intro ha hov hog
    cases hoid : ctx.org_id with
    | none => rw [hoid] at hog; simp [truthy] at hog
    | some s =>
      rw [hoid] at hog
      cases allow_null_org <;>
        simp [scope_select, ha, hov, hog, hoid, OrgFilter.matches]
  · intro ha hov hog
    simp [scope_select, ha, hov, hog, OrgFilter.matches]

/-- Witness for C4 exercising each branch at concrete inputs. -/
theorem scope_select_filter_semantics_witness :
    ((scope_select false member_user { org_id := some "org-1" } false).matches
        (some "org-2") = true)
  ∧ ((scope_select true member_user { org_id := none } false).matches
        (some "org-1") = ((some "org-1" : Option String) == none))
  ∧ ((scope_select true member_user { org_id := some "org-1" } true).matches
        none = ((none : Option String) == some "org-1" || (true && (none : Option String) == none)))
  ∧ ((scope_select true admin_user { org_id := some "org-2", is_override := true } false).matches
        (some "org-2")
        = ((some "org-2" : Option String) == some "org-2" || (false && (some "org-2" : Option String) == none)))
  ∧ ((scope_select true admin_user { org_id := none, is_override := true } false).matches
        (some "org-7") = true) :=
  ⟨(scope_select_filter_semantics member_user { org_id := some "org-1" } false (some "org-2")).1,
   (scope_select_filter_semantics member_user { org_id := none } false (some "org-1")).2.1
     (by decide) (by decide),
   (scope_select_filter_semantics member_user { org_id := some "org-1" } true none).2.2.1
     (by decide) (by decide),
   (scope_select_filter_semantics admin_user { org_id := some "org-2", is_override := true }
       false (some "org-2")).2.2.2.1 (by decide) (by decide) (by decide),
   (scope_select_filter_semantics admin_user { org_id := none, is_override := true }
       false (some "org-7")).2.2.2.2 (by decide) (by decide) (by decide)⟩

/-- C5: a system admin (role `system_admin` or `super_admin`) passes
`require_permissions` for any required set, irrespective of the permissions
they hold; a non-admin missing at least one required permission is rejected
with a Forbidden error whose detail lists exactly the missing permissions. -/
theorem require_permissions_bypass_and_denial (user : CurrentUser)
    (required : List String) :
    (user.is_system_admin = true → require_permissions required user = .ok user)
  ∧ (user.is_system_admin = false →
      (∃ p, p ∈ required ∧ user.has_permission p = false) →
      require_permissions required user =
        .error (.forbidden ("Missing required permissions: " ++
          String.intercalate ", "
            (required.filter (fun p => !(user.has_permission p)))))) := by
  constructor
  · intro ha; simp [require_permissions, ha]
  · intro ha hex
    obtain ⟨p, hp, hnp⟩ := hex
    have hmem : p ∈ required.filter (fun q => !(user.has_permission q)) :=
      List.mem_filter.mpr ⟨hp, by simp [hnp]⟩
    have hne : required.filter (fun q => !(user.has_permission q)) ≠ [] :=
      List.ne_nil_of_mem hmem
    simp [require_permissions, ha, hne]

/-- Witness for C5: an admin holding none of the required permissions passes;
a member lacking `write:users` is denied with the missing permission named. -/
theorem require_permissions_bypass_and_denial_witness :
    require_permissions ["write:users", "delete:users"] admin_user = .ok admin_user ∧
    require_permissions ["read:teams", "write:users"] member_user =
      .error (.forbidden ("Missing required permissions: " ++
        String.intercalate ", "
          ((["read:teams", "write:users"] : List String).filter
            (fun p => !(member_user.has_permission p))))) :=
  ⟨(require_permissions_bypass_and_denial admin_user ["write:users", "delete:users"]).1
     (by decide),
   (require_permissions_bypass_and_denial member_user ["read:teams", "write:users"]).2
     (by decide) ⟨"write:users", by decide, by decide⟩⟩

/-- C6: a malformed header, or any header algorithm other than exactly
`"RS256"` (including `"none"` or a missing `alg`), makes `validate_token`
fail with `AUTH_TOKEN_INVALID` before the signing key is ever resolved or
the signature checked — for every key-lookup and decode behaviour. -/
theorem validate_token_algorithm_pinning (t : Token)
    (ks : String → Except ErrorCode (Option JWK))
    (dec : JWK → Except JoseError (List (String × JsonVal))) :
    (t.header = none →
      validate_token t ks dec = .error .AUTH_TOKEN_INVALID)
  ∧ (∀ h, t.header = some h → ¬(h.alg = some "RS256") →
      validate_token t ks dec = .error .AUTH_TOKEN_INVALID) := by
  constructor
  · intro hh; simp [validate_token, validate_algorithm, hh]
  · intro h hh halg
    have : (h.alg == some "RS256") = false := beq_eq_false_iff_ne.mpr halg
    simp [validate_token, validate_algorithm, hh, this]

/-- Witness for C6: an `alg = "none"` token is rejected even though the
supplied key lookup and decode step would both succeed. -/
theorem validate_token_algorithm_pinning_witness :
    validate_token { header := some { alg := some "none", kid := some "k1" } }
        (fun _ => .ok (some { kid := "k1", material := "m" }))
        (fun _ => .ok [("sub", .str "u1")])
      = .error .AUTH_TOKEN_INVALID :=
  (validate_token_algorithm_pinning
      { header := some { alg := some "none", kid := some "k1" } }
      (fun _ => .ok (some { kid := "k1", material := "m" }))
      (fun _ => .ok [("sub", .str "u1")])).2
    { alg := some "none", kid := some "k1" } rfl (by decide)

/-- C7 counterexample: the claim says `roles` may appear unnamespaced with
the unnamespaced value preferred.  The extractor reads roles exclusively
from the namespaced claim, so a payload whose only roles are the top-level
`["admin"]` yields an empty role set. -/
theorem extract_ignores_toplevel_roles :
    (extract_user_from_token
        [("sub", .str "u1"), ("roles", .list [.str "admin"])]
        "tok" "https://claims.example.com").roles = [] ∧
    as_str_list (pget [("sub", JsonVal.str "u1"),
        ("roles", JsonVal.list [JsonVal.str "admin"])] "roles") = ["admin"] := by
  exact ⟨rfl, rfl⟩

/-- C7 amended: for the standard claims (shown for `email` and `org_id`) and
for `permissions`, the unnamespaced value is used when it is present and
truthy, and extraction falls back to the namespaced value when the
unnamespaced one is absent or falsy (empty/null/false/empty list — not only
when absent); `roles` is read from the namespaced location only, and any
non-list `permissions`/`roles` value is treated as empty via
`as_str_list`. -/
theorem extract_claim_precedence (payload : List (String × JsonVal))
    (tok ns : String) :
    (∀ v, pget payload "email" = some v → v.truthy = true →
      (extract_user_from_token payload tok ns).email = as_opt_str (some v))
  ∧ (pget payload "email" = none →
      (extract_user_from_token payload tok ns).email
        = as_opt_str (pget payload (ns ++ "/" ++ "email")))
  ∧ (∀ v, pget payload "email" = some v → v.truthy = false →
      (extract_user_from_token payload tok ns).email
        = as_opt_str (pget payload (ns ++ "/" ++ "email")))
  ∧ (∀ v, pget payload "org_id" = some v → v.truthy = true →
      (extract_user_from_token payload tok ns).org_id = as_opt_str (some v))
  ∧ (pget payload "org_id" = none →
      (extract_user_from_token payload tok ns).org_id
        = as_opt_str (pget payload (ns ++ "/" ++ "org_id")))
  ∧ (∀ v, pget payload "permissions" = some v → v.truthy = true →
      (extract_user_from_token payload tok ns).permissions = as_str_list (some v))
  ∧ (pget payload "permissions" = none →
      (extract_user_from_token payload tok ns).permissions
        = as_str_list (some ((pget payload (ns ++ "/" ++ "permissions")).getD (.list []))))
  ∧ ((extract_user_from_token payload tok ns).roles
      = as_str_list (some ((pget payload (ns ++ "/" ++ "roles")).getD (.list [])))) := by
  refine ⟨?_, ?_, ?_, ?_, ?_, ?_, ?_, ?_⟩
  · intro v hv ht
    simp [extract_user_from_token, or_claim, hv, ht]
  · intro hv
    simp [extract_user_from_token, or_claim, hv]
  · intro v hv ht
    simp [extract_user_from_token, or_claim, hv, ht]
  · intro v hv ht
    simp [extract_user_from_token, or_claim, hv, ht]
  · intro hv
    simp [extract_user_from_token, or_claim, hv]
  · intro v hv ht
    simp [extract_user_from_token, or_claim_d, hv, ht]
  · intro hv
    simp [extract_user_from_token, or_claim_d, hv, JsonVal.truthy]
  · simp [extract_user_from_token]

/-- Witness for C7's amended statement: unnamespaced email wins over a
namespaced one; an absent unnamespaced email falls back; a falsy (empty)
unnamespaced email also falls back; permissions follow suit; roles come
from the namespaced claim only. -/
theorem extract_claim_precedence_witness :
    (extract_user_from_token
        [("sub", .str "u1"), ("email", .str "a@x.io"), ("ns/email", .str "b@x.io")]
        "tok" "ns").email = as_opt_str (some (.str "a@x.io")) ∧
    (extract_user_from_token [("sub", .str "u1"), ("ns/email", .str "b@x.io")]
        "tok" "ns").email = as_opt_str (pget [("sub", JsonVal.str "u1"),
          ("ns/email", JsonVal.str "b@x.io")] ("ns" ++ "/" ++ "email")) ∧
    (extract_user_from_token
        [("sub", .str "u1"), ("email", .str ""), ("ns/email", .str "b@x.io")]
        "tok" "ns").email = as_opt_str (pget [("sub", JsonVal.str "u1"),
          ("email", JsonVal.str ""), ("ns/email", JsonVal.str "b@x.io")]
          ("ns" ++ "/" ++ "email")) ∧
    (extract_user_from_token
        [("sub", .str "u1"), ("permissions", .list [.str "read:users"])]
        "tok" "ns").permissions
      = as_str_list (some (.list [.str "read:users"])) ∧
    (extract_user_from_token [("sub", .str "u1"), ("ns/roles", .list [.str "member"])]
        "tok" "ns").roles
      = as_str_list (some ((pget [("sub", JsonVal.str "u1"),
          ("ns/roles", JsonVal.list [JsonVal.str "member"])] ("ns" ++ "/" ++ "roles")).getD
            (.list []))) :=
  ⟨(extract_claim_precedence
      [("sub", .str "u1"), ("email", .str "a@x.io"), ("ns/email", .str "b@x.io")]
      "tok" "ns").1 (.str "a@x.io") rfl rfl,
   (extract_claim_precedence [("sub", .str "u1"), ("ns/email", .str "b@x.io")]
      "tok" "ns").2.1 rfl,
   (extract_claim_precedence
      [("sub", .str "u1"), ("email", .str ""), ("ns/email", .str "b@x.io")]
      "tok" "ns").2.2.1 (.str "") rfl rfl,
   (extract_claim_precedence
      [("sub", .str "u1"), ("permissions", .list [.str "read:users"])]
      "tok" "ns").2.2.2.2.2.1 (.list [.str "read:users"]) rfl rfl,
   (extract_claim_precedence [("sub", .str "u1"), ("ns/roles", .list [.str "member"])]
      "tok" "ns").2.2.2.2.2.2.2⟩

/-- C8: the JWKS cache refreshes exactly when the TTL has elapsed or the
requested kid is absent; within the TTL a cached kid is answered from the
map with no fetch; a failed refresh leaves the cached map (and fetch time)
unchanged and serves the stale map, failing hard exactly when the map was
already empty; a successful refresh replaces the map wholesale. -/
theorem get_signing_key_cache_policy (st : JWKSState) (ttl : Nat) (kid : String)
    (now : Nat) (fr : Option (List JWK)) :
    ((∃ e, get_signing_key st ttl kid now fr = .error e) ↔
      ((now - st.last_fetch > ttl || (dict_get st.keys kid).isNone) = true ∧
        fr = none ∧ st.keys = []))
  ∧ ((now - st.last_fetch > ttl || (dict_get st.keys kid).isNone) = false →
      get_signing_key st ttl kid now fr =
        .ok { result := dict_get st.keys kid, state := st, fetched := false })
  ∧ ((now - st.last_fetch > ttl || (dict_get st.keys kid).isNone) = true →
      fr = none → st.keys ≠ [] →
      get_signing_key st ttl kid now fr =
        .ok { result := dict_get st.keys kid, state := st, fetched := true })
  ∧ (∀ jwks, (now - st.last_fetch > ttl || (dict_get st.keys kid).isNone) = true →
      fr = some jwks →
      get_signing_key st ttl kid now fr =
        .ok { result := dict_get (index_keys jwks) kid
            , state := { keys := index_keys jwks, last_fetch := now }
            , fetched := true }) := by
  refine ⟨?_, ?_, ?_, ?_⟩
  · constructor
    · rintro ⟨e, he⟩
      by_cases hc : (now - st.last_fetch > ttl || (dict_get st.keys kid).isNone) = true
      · refine ⟨hc, ?_⟩
        cases fr with
        | some jwks => simp [get_signing_key, _fetch_keys, hc] at he
        | none =>
          by_cases hk : st.keys = []
          · exact ⟨rfl, hk⟩
          · simp [get_signing_key, _fetch_keys, hc, hk] at he
      · rw [Bool.not_eq_true] at hc
        simp [get_signing_key, hc] at he
    · rintro ⟨hc, hfr, hk⟩
      subst hfr
      exact ⟨.AUTH_TOKEN_INVALID, by simp [get_signing_key, _fetch_keys, hc, hk, dict_get]⟩
  · intro hc
    simp [get_signing_key, hc]
  · intro hc hfr hk
    subst hfr
    simp [get_signing_key, _fetch_keys, hc, hk]
  · intro jwks hc hfr
    subst hfr
    simp [get_signing_key, _fetch_keys, hc]

/-- Witness for C8: one key cached at time 100 with TTL 3600 — a lookup at
200 is served from the cache without fetching; a lookup at 5000 with a
failing fetch serves the stale map; a cold empty cache with a failing fetch
hard-fails. -/
theorem get_signing_key_cache_policy_witness :
    get_signing_key { keys := [("k1", { kid := "k1", material := "m1" })], last_fetch := 100 }
        3600 "k1" 200 none
      = .ok { result := dict_get [("k1", { kid := "k1", material := "m1" })] "k1"
            , state := { keys := [("k1", { kid := "k1", material := "m1" })], last_fetch := 100 }
            , fetched := false } ∧
    get_signing_key { keys := [("k1", { kid := "k1", material := "m1" })], last_fetch := 100 }
        3600 "k1" 5000 none
      = .ok { result := dict_get [("k1", { kid := "k1", material := "m1" })] "k1"
            , state := { keys := [("k1", { kid := "k1", material := "m1" })], last_fetch := 100 }
            , fetched := true } ∧
    (∃ e, get_signing_key { keys := [], last_fetch := 0 } 3600 "k1" 5000 none = .error e) :=
  ⟨(get_signing_key_cache_policy
      { keys := [("k1", { kid := "k1", material := "m1" })], last_fetch := 100 }
      3600 "k1" 200 none).2.1 (by decide),
   (get_signing_key_cache_policy
      { keys := [("k1", { kid := "k1", material := "m1" })], last_fetch := 100 }
      3600 "k1" 5000 none).2.2.1 (by decide) rfl (by decide),
   (get_signing_key_cache_policy { keys := [], last_fetch := 0 }
      3600 "k1" 5000 none).1.mpr ⟨by decide, rfl, rfl⟩⟩

/-- C9: the control status is a pure function of the evidence count with the
100/10/0 thresholds (characterized below as exact interval conditions); a
control whose mapped evidence type list is empty always counts zero events
and is `NOT_APPLICABLE`; the overall score is 100 when every control is
`NOT_APPLICABLE` (non-empty evaluation), and otherwise the rounded average
of the weights 1.0 / 0.5 / 0.25 / 0.0 over the non-excluded controls. -/
theorem compliance_status_and_score :
    (weights_get ControlStatus.COMPLIANT.value = some 1 ∧
     weights_get ControlStatus.PARTIAL.value = some (1 / 2) ∧
     weights_get ControlStatus.PENDING_REVIEW.value = some (1 / 4) ∧
     weights_get ControlStatus.NON_COMPLIANT.value = some 0 ∧
     weights_get ControlStatus.NOT_APPLICABLE.value = none)
  ∧ (∀ cid n, (_determine_control_status cid n = .COMPLIANT ↔ 100 ≤ n)
      ∧ (_determine_control_status cid n = .PARTIAL ↔ 10 ≤ n ∧ n < 100)
      ∧ (_determine_control_status cid n = .PENDING_REVIEW ↔ 0 < n ∧ n < 10)
      ∧ (_determine_control_status cid n = .NOT_APPLICABLE ↔ n = 0))
  ∧ (∀ cid org s e db,
      _determine_control_status cid (control_evidence_count [] org s e db)
        = .NOT_APPLICABLE)
  ∧ (∀ cs : List ControlRecord, cs ≠ [] →
      (∀ c ∈ cs, c.status = ControlStatus.NOT_APPLICABLE.value) →
      _calculate_compliance_score cs = 100)
  ∧ (∀ cs : List ControlRecord,
      (cs.filter (fun c => (weights_get c.status).isSome)).length ≠ 0 →
      _calculate_compliance_score cs =
        round2 ((cs.map (fun c => (weights_get c.status).getD 0)).sum /
          ((cs.filter (fun c => (weights_get c.status).isSome)).length : ℚ) * 100)) := by
  refine ⟨⟨by simp [weights_get, ControlStatus.value],
    by simp [weights_get, ControlStatus.value],
    by simp [weights_get, ControlStatus.value],
    by simp [weights_get, ControlStatus.value],
    by simp [weights_get, ControlStatus.value]⟩, ?_, ?_, ?_, ?_⟩
  · intro cid n
    unfold _determine_control_status
    split_ifs with h1 h2 h3 <;>
      refine ⟨⟨fun hx => ?_, fun hx => ?_⟩, ⟨fun hx => ?_, fun hx => ?_⟩,
        ⟨fun hx => ?_, fun hx => ?_⟩, ⟨fun hx => ?_, fun hx => ?_⟩⟩ <;>
      first
        | omega
        | rfl
        | exact absurd hx (by decide)
  · intro cid org s e db
    simp [control_evidence_count, _determine_control_status]
  · intro cs hne hall
    have hfil : cs.filter (fun c => (weights_get c.status).isSome) = [] := by
      refine List.filter_eq_nil_iff.mpr ?_
      intro c hc
      simp [weights_get, hall c hc, ControlStatus.value]
    unfold _calculate_compliance_score
    simp [hne, hfil]
  · intro cs hk
    have hne : cs ≠ [] := by
      intro hcs; subst hcs; simp at hk
    have hw : ((cs.filter (fun c => (weights_get c.status).isSome)).length : ℚ) ≠ 0 := by
      exact_mod_cast hk
    unfold _calculate_compliance_score
    simp [hne, hw]

/-- Witness for C9: boundary statuses at evidence counts 100/99/10/9/0, an
unmapped control, an all-N/A evaluation scoring 100, and a mixed evaluation
(weights 1 and 1/2 over two counted controls) scoring 75. -/
theorem compliance_status_and_score_witness :
    _determine_control_status "CC1.1" 100 = .COMPLIANT ∧
    _determine_control_status "CC1.1" 99 = .PARTIAL ∧
    _determine_control_status "CC1.1" 10 = .PARTIAL ∧
    _determine_control_status "CC1.1" 9 = .PENDING_REVIEW ∧
    _determine_control_status "CC1.1" 0 = .NOT_APPLICABLE ∧
    _determine_control_status "CC1.2" (control_evidence_count [] (some "org-1") 0 10 [])
      = .NOT_APPLICABLE ∧
    _calculate_compliance_score
      [{ control_id := "CC1.1", status := "not_applicable", evidence_count := 0 },
       { control_id := "CC1.2", status := "not_applicable", evidence_count := 0 }] = 100 ∧
    _calculate_compliance_score
      [{ control_id := "CC1.1", status := "compliant", evidence_count := 150 },
       { control_id := "CC1.2", status := "partial", evidence_count := 50 },
       { control_id := "CC1.3", status := "not_applicable", evidence_count := 0 }] = 75 := by
  refine ⟨((compliance_status_and_score.2.1 "CC1.1" 100).1).mpr (by decide),
    ((compliance_status_and_score.2.1 "CC1.1" 99).2.1).mpr (by decide),
    ((compliance_status_and_score.2.1 "CC1.1" 10).2.1).mpr (by decide),
    ((compliance_status_and_score.2.1 "CC1.1" 9).2.2.1).mpr (by decide),
    ((compliance_status_and_score.2.1 "CC1.1" 0).2.2.2).mpr (by decide),
    compliance_status_and_score.2.2.1 "CC1.2" (some "org-1") 0 10 [],
    compliance_status_and_score.2.2.2.1 _ (by decide) (by decide), ?_⟩
  rw [compliance_status_and_score.2.2.2.2 _ (by decide)]
  simp [weights_get]
  norm_num [round2, round_eq]
